import Mathlib

/-!
The guardian-prover heartbeat endpoint.

A shallow embedding of `PostHealthCheck`
(`packages/guardian-prover-health-check/http/post_health_check.go`).

The handler is sequential code over four collaborators: the request binder of
the web framework, `SignatureToGuardianProver`, the health-check repository and
the per-guardian metric.  The collaborators are parameters of the embedding; the
handler threads the server state explicitly and records, in order, every call
it makes to a collaborator, so that "is called once" and "is not called" are
statements about the recorded calls.
-/

namespace common

/-- The go-ethereum `common.Address`, a 20-byte array, kept as its bytes. -/
structure Address where
  bytes : List Nat
  deriving DecidableEq, Repr

end common

namespace guardianproverhealthcheck

/-- Modelled from the spec: the `GuardianProver` type declaration is not part of
the handler's file.  One entry of the known guardian set: an address, a numeric
ID (`*big.Int` in the handler, which calls `ID.Uint64()`), and the entry's own
health-check counter.  The counter is a metric handle in the handler, so `Inc()`
on the loop variable is an increment of the entry's counter; its value is kept
here as the number of increments observed. -/
structure GuardianProver where
  Address : common.Address
  ID : Int
  HealthCheckCounter : Nat
  deriving DecidableEq, Repr

/-- The record handed to `healthCheckRepo.Save`, with the five fields the handler
fills in. -/
structure SaveHealthCheckOpts where
  GuardianProverID : Nat
  Alive : Bool
  ExpectedAddress : String
  RecoveredAddress : String
  SignedResponse : String
  deriving DecidableEq, Repr

end guardianproverhealthcheck

namespace http

open guardianproverhealthcheck

/-- The constant `http.StatusBadRequest` of `net/http`. -/
def StatusBadRequest : Nat := 400

/-- The constant `http.StatusOK` of `net/http`. -/
def StatusOK : Nat := 200

/-- The bytes of a Go string literal, as `[]byte(s)` gives them (UTF-8). -/
def goBytes (s : String) : List Nat :=
  (s.toList.flatMap String.utf8EncodeChar).map UInt8.toNat

/-- The method `(*big.Int).Uint64`: the low 64 bits of the magnitude. -/
def Uint64 (x : Int) : Nat := x.natAbs % 2 ^ 64

/-- The request body after binding: `healthCheckReq`. -/
structure healthCheckReq where
  ProverAddress : String
  HeartBeatSignature : String
  deriving DecidableEq, Repr

/-- The state of the server the handler reads and writes: the known guardian
provers and the health-check repository. -/
structure Server (Store : Type) where
  guardianProvers : List GuardianProver
  healthCheckRepo : Store

/-- The collaborators of the handler.  `Body` is the raw request the framework
binds, `Err` the Go `error` values, `Store` the state behind the repository.
`Keccak256Hash` and `Hex` are the go-ethereum functions of those names, `Bind`
is `c.Bind` returning the filled-in request or the error,
`SignatureToGuardianProver` returns the recovered guardian prover or the error,
and `Save` returns the store after the call and the error it reports, if
any. -/
structure Collaborators (Body Err Store : Type) where
  Keccak256Hash : List Nat → List Nat
  Hex : common.Address → String
  Bind : Body → Except Err healthCheckReq
  SignatureToGuardianProver :
    List Nat → String → List GuardianProver → Except Err GuardianProver
  Save : Store → SaveHealthCheckOpts → Store × Option Err

/-- One call made by the handler, in the order the handler makes them. -/
inductive Call (Body Err : Type) where
  | Bind (c : Body)
  | SignatureToGuardianProver (msg : List Nat) (sig : String)
      (provers : List GuardianProver)
  | Save (opts : SaveHealthCheckOpts)
  | Inc (index : Nat)
  | Info (message key value : String)
  | JSON (code : Nat) (body : Option Err)

/-- What one run of the handler leaves behind: the server state, the response
handed to `c.JSON` (the status code and the value to serialise, `none` being
`nil`, that is JSON `null`), and the calls made.  The handler returns whatever
`c.JSON` returns; that value is the framework's and is not kept. -/
structure Outcome (Body Err Store : Type) where
  srv : Server Store
  status : Nat
  body : Option Err
  calls : List (Call Body Err)

/-- The package variable `msg`: the Keccak-256 hash of the bytes of
`"HEART_BEAT"`. -/
def msg {Body Err Store : Type} (E : Collaborators Body Err Store) : List Nat :=
  E.Keccak256Hash (goBytes "HEART_BEAT")

/-- The counter loop `for _, v := range srv.guardianProvers`, started at index
`i`: every entry whose `Address.Hex()` equals `target` has its counter
incremented; the loop runs to the end of the slice.  Returns the entries after
the loop and the indices on which `Inc()` was called, in order. -/
def incLoop (Hex : common.Address → String) (target : String) :
    Nat → List GuardianProver → List GuardianProver × List Nat
  | _, [] => ([], [])
  | i, v :: vs =>
    let rest := incLoop Hex target (i + 1) vs
    if Hex v.Address = target then
      (GuardianProver.mk v.Address v.ID (v.HealthCheckCounter + 1) :: rest.1, i :: rest.2)
    else
      (v :: rest.1, rest.2)

/-- The record the handler builds from the recovered guardian prover and the
request. -/
def saveOpts (Hex : common.Address → String) (g : GuardianProver)
    (req : healthCheckReq) : SaveHealthCheckOpts :=
  SaveHealthCheckOpts.mk (Uint64 g.ID) true (Hex g.Address) (Hex g.Address)
    req.HeartBeatSignature

/-- The handler `PostHealthCheck`. -/
def PostHealthCheck {Body Err Store : Type} (E : Collaborators Body Err Store)
    (srv : Server Store) (c : Body) : Outcome Body Err Store :=
  match E.Bind c with
  | .error err =>
    Outcome.mk srv StatusBadRequest (some err)
      [.Bind c, .JSON StatusBadRequest (some err)]
  | .ok req =>
    match E.SignatureToGuardianProver (msg E) req.HeartBeatSignature srv.guardianProvers with
    | .error err =>
      Outcome.mk srv StatusBadRequest (some err)
        [.Bind c,
         .SignatureToGuardianProver (msg E) req.HeartBeatSignature srv.guardianProvers,
         .JSON StatusBadRequest (some err)]
    | .ok recoveredGuardianProver =>
      let opts := saveOpts E.Hex recoveredGuardianProver req
      match E.Save srv.healthCheckRepo opts with
      | (repo, some err) =>
        Outcome.mk (Server.mk srv.guardianProvers repo) StatusBadRequest (some err)
          [.Bind c,
           .SignatureToGuardianProver (msg E) req.HeartBeatSignature srv.guardianProvers,
           .Save opts,
           .JSON StatusBadRequest (some err)]
      | (repo, none) =>
        let loop := incLoop E.Hex (E.Hex recoveredGuardianProver.Address) 0
          srv.guardianProvers
        Outcome.mk (Server.mk loop.1 repo) StatusOK none
          ([.Bind c,
            .SignatureToGuardianProver (msg E) req.HeartBeatSignature srv.guardianProvers,
            .Save opts]
            ++ loop.2.map Call.Inc
            ++ [.Info "successful health check" "guardianProver"
                  (E.Hex recoveredGuardianProver.Address),
                .JSON StatusOK none])

/-- The records handed to `Save` among the calls, in order. -/
def saves {Body Err : Type} : List (Call Body Err) → List SaveHealthCheckOpts
  | [] => []
  | .Save opts :: cs => opts :: saves cs
  | _ :: cs => saves cs

/-- The digests handed to `SignatureToGuardianProver` among the calls, in
order. -/
def digests {Body Err : Type} : List (Call Body Err) → List (List Nat)
  | [] => []
  | .SignatureToGuardianProver m _ _ :: cs => m :: digests cs
  | _ :: cs => digests cs

/-- The indices of the entries on which `Inc()` was called, in order. -/
def incs {Body Err : Type} : List (Call Body Err) → List Nat
  | [] => []
  | .Inc i :: cs => i :: incs cs
  | _ :: cs => incs cs

/-- The counters of the known guardian provers, in the order of the set. -/
def counters (provers : List GuardianProver) : List Nat :=
  provers.map (fun v => v.HealthCheckCounter)

/-! ## Fixtures: a concrete set of collaborators -/

namespace Fixture

/-- A three-entry address book standing in for `Address.Hex()`. -/
def Hex (a : common.Address) : String :=
  match a.bytes with
  | [1] => "0x01"
  | [2] => "0x02"
  | [9] => "0x09"
  | _ => "0x00"

/-- A binder over already-decoded bodies: `none` is a body that does not
decode. -/
def Bind : Option healthCheckReq → Except String healthCheckReq
  | none => .error "bad request"
  | some req => .ok req

/-- A signature table standing in for public-key recovery. -/
def recover (sig : String) : Option common.Address :=
  if sig = "sigA" then some (common.Address.mk [1])
  else if sig = "sigB" then some (common.Address.mk [2])
  else if sig = "sigZ" then some (common.Address.mk [9])
  else none

/-- Recovery followed by the lookup of the first known guardian prover with the
recovered address. -/
def SignatureToGuardianProver (_msg : List Nat) (sig : String)
    (provers : List GuardianProver) : Except String GuardianProver :=
  match recover sig with
  | none => .error "invalid signature"
  | some a =>
    match provers.find? (fun p => decide (Hex a = Hex p.Address)) with
    | some p => .ok p
    | none => .error "signature does not recover to known guardian prover"

/-- A recovery that trusts the signature table and does not consult the set. -/
def SignatureToStranger (_msg : List Nat) (sig : String)
    (_provers : List GuardianProver) : Except String GuardianProver :=
  match recover sig with
  | none => .error "invalid signature"
  | some a => .ok (GuardianProver.mk a 99 0)

/-- A store that appends every record. -/
def Save (st : List SaveHealthCheckOpts) (o : SaveHealthCheckOpts) :
    List SaveHealthCheckOpts × Option String :=
  (st ++ [o], none)

/-- A store that rejects every record. -/
def SaveDown (st : List SaveHealthCheckOpts) (_o : SaveHealthCheckOpts) :
    List SaveHealthCheckOpts × Option String :=
  (st, some "store unavailable")

/-- Collaborators with a working store. -/
def deps : Collaborators (Option healthCheckReq) String (List SaveHealthCheckOpts) :=
  Collaborators.mk (fun bs => bs) Hex Bind SignatureToGuardianProver Save

/-- Collaborators whose store is down. -/
def depsDown : Collaborators (Option healthCheckReq) String (List SaveHealthCheckOpts) :=
  Collaborators.mk (fun bs => bs) Hex Bind SignatureToGuardianProver SaveDown

/-- Collaborators whose recovery returns a guardian prover outside the set. -/
def depsStranger : Collaborators (Option healthCheckReq) String (List SaveHealthCheckOpts) :=
  Collaborators.mk (fun bs => bs) Hex Bind SignatureToStranger Save

/-- Guardian 7 at address 1 with counter 3, guardian 8 at address 2. -/
def server : Server (List SaveHealthCheckOpts) :=
  Server.mk
    [GuardianProver.mk (common.Address.mk [1]) 7 3,
     GuardianProver.mk (common.Address.mk [2]) 8 0] []

/-- A set in which address 1 is listed twice. -/
def serverDup : Server (List SaveHealthCheckOpts) :=
  Server.mk
    [GuardianProver.mk (common.Address.mk [1]) 7 3,
     GuardianProver.mk (common.Address.mk [2]) 8 0,
     GuardianProver.mk (common.Address.mk [1]) 5 10] []

/-- The first entry of both sets: guardian 7 at address 1 with counter 3. -/
def guardianA : GuardianProver := GuardianProver.mk (common.Address.mk [1]) 7 3

/-- The record of a heartbeat of guardian 7. -/
def recordA : SaveHealthCheckOpts :=
  SaveHealthCheckOpts.mk 7 true "0x01" "0x01" "sigA"

/-- The guardian prover the stranger recovery returns for `sigZ`. -/
def stranger : GuardianProver := GuardianProver.mk (common.Address.mk [9]) 99 0

/-- A heartbeat of guardian 7. -/
def reqA : healthCheckReq := healthCheckReq.mk "0x01" "sigA"

/-- The same heartbeat with another `prover` field. -/
def reqA2 : healthCheckReq := healthCheckReq.mk "0xdeadbeef" "sigA"

/-- A heartbeat signed by an address outside the set. -/
def reqZ : healthCheckReq := healthCheckReq.mk "0x01" "sigZ"

end Fixture

end http

namespace http

open guardianproverhealthcheck

/-! ## The four paths through the handler -/

theorem PostHealthCheck_bind_error {Body Err Store : Type}
    (E : Collaborators Body Err Store) (srv : Server Store) (c : Body) (err : Err)
    (hb : E.Bind c = .error err) :
    PostHealthCheck E srv c =
      Outcome.mk srv StatusBadRequest (some err)
        [.Bind c, .JSON StatusBadRequest (some err)] := by
  simp only [PostHealthCheck, hb]

theorem PostHealthCheck_recover_error {Body Err Store : Type}
    (E : Collaborators Body Err Store) (srv : Server Store) (c : Body)
    (req : healthCheckReq) (err : Err)
    (hb : E.Bind c = .ok req)
    (hr : E.SignatureToGuardianProver (msg E) req.HeartBeatSignature
            srv.guardianProvers = .error err) :
    PostHealthCheck E srv c =
      Outcome.mk srv StatusBadRequest (some err)
        [.Bind c,
         .SignatureToGuardianProver (msg E) req.HeartBeatSignature srv.guardianProvers,
         .JSON StatusBadRequest (some err)] := by
  simp only [PostHealthCheck, hb, hr]

theorem PostHealthCheck_save_error {Body Err Store : Type}
    (E : Collaborators Body Err Store) (srv : Server Store) (c : Body)
    (req : healthCheckReq) (g : GuardianProver) (repo : Store) (err : Err)
    (hb : E.Bind c = .ok req)
    (hr : E.SignatureToGuardianProver (msg E) req.HeartBeatSignature
            srv.guardianProvers = .ok g)
    (hs : E.Save srv.healthCheckRepo (saveOpts E.Hex g req) = (repo, some err)) :
    PostHealthCheck E srv c =
      Outcome.mk (Server.mk srv.guardianProvers repo) StatusBadRequest (some err)
        [.Bind c,
         .SignatureToGuardianProver (msg E) req.HeartBeatSignature srv.guardianProvers,
         .Save (saveOpts E.Hex g req),
         .JSON StatusBadRequest (some err)] := by
  simp only [PostHealthCheck, hb, hr, hs]

theorem PostHealthCheck_success {Body Err Store : Type}
    (E : Collaborators Body Err Store) (srv : Server Store) (c : Body)
    (req : healthCheckReq) (g : GuardianProver) (repo : Store)
    (hb : E.Bind c = .ok req)
    (hr : E.SignatureToGuardianProver (msg E) req.HeartBeatSignature
            srv.guardianProvers = .ok g)
    (hs : E.Save srv.healthCheckRepo (saveOpts E.Hex g req) = (repo, none)) :
    PostHealthCheck E srv c =
      Outcome.mk
        (Server.mk (incLoop E.Hex (E.Hex g.Address) 0 srv.guardianProvers).1 repo)
        StatusOK none
        ([.Bind c,
          .SignatureToGuardianProver (msg E) req.HeartBeatSignature srv.guardianProvers,
          .Save (saveOpts E.Hex g req)]
          ++ (incLoop E.Hex (E.Hex g.Address) 0 srv.guardianProvers).2.map Call.Inc
          ++ [.Info "successful health check" "guardianProver" (E.Hex g.Address),
              .JSON StatusOK none]) := by
  simp only [PostHealthCheck, hb, hr, hs]

/-! ## The recorded calls -/

theorem saves_append {Body Err : Type} (xs ys : List (Call Body Err)) :
    saves (xs ++ ys) = saves xs ++ saves ys := by
  induction xs with
  | nil => rfl
  | cons x xs ih => cases x <;> simp [saves, ih]

theorem incs_append {Body Err : Type} (xs ys : List (Call Body Err)) :
    incs (xs ++ ys) = incs xs ++ incs ys := by
  induction xs with
  | nil => rfl
  | cons x xs ih => cases x <;> simp [incs, ih]

theorem digests_append {Body Err : Type} (xs ys : List (Call Body Err)) :
    digests (xs ++ ys) = digests xs ++ digests ys := by
  induction xs with
  | nil => rfl
  | cons x xs ih => cases x <;> simp [digests, ih]

theorem saves_map_Inc {Body Err : Type} (l : List Nat) :
    saves (l.map (Call.Inc : Nat → Call Body Err)) = [] := by
  induction l with
  | nil => rfl
  | cons x xs ih => simp [saves, ih]

theorem digests_map_Inc {Body Err : Type} (l : List Nat) :
    digests (l.map (Call.Inc : Nat → Call Body Err)) = [] := by
  induction l with
  | nil => rfl
  | cons x xs ih => simp [digests, ih]

theorem incs_map_Inc {Body Err : Type} (l : List Nat) :
    incs (l.map (Call.Inc : Nat → Call Body Err)) = l := by
  induction l with
  | nil => rfl
  | cons x xs ih => simp [incs, ih]

/-! ## The counter loop -/

theorem incLoop_fst (Hex : common.Address → String) (t : String) (i : Nat)
    (vs : List GuardianProver) :
    (incLoop Hex t i vs).1 =
      vs.map (fun v =>
        if Hex v.Address = t then
          GuardianProver.mk v.Address v.ID (v.HealthCheckCounter + 1)
        else v) := by
  induction vs generalizing i with
  | nil => rfl
  | cons v vs ih =>
    by_cases h : Hex v.Address = t <;> simp [incLoop, h, ih]

theorem incLoop_snd_length (Hex : common.Address → String) (t : String) (i : Nat)
    (vs : List GuardianProver) :
    (incLoop Hex t i vs).2.length =
      vs.countP (fun v => decide (Hex v.Address = t)) := by
  induction vs generalizing i with
  | nil => rfl
  | cons v vs ih =>
    by_cases h : Hex v.Address = t <;> simp [incLoop, h, ih]

theorem incLoop_snd_mem (Hex : common.Address → String) (t : String) (i j : Nat)
    (vs : List GuardianProver) :
    j ∈ (incLoop Hex t i vs).2 ↔
      i ≤ j ∧ ∃ v, vs[j - i]? = some v ∧ Hex v.Address = t := by
  induction vs generalizing i with
  | nil => simp [incLoop]
  | cons v vs ih =>
    by_cases h : Hex v.Address = t
    · simp only [incLoop, h, if_true, List.mem_cons, ih]
      constructor
      · rintro (rfl | ⟨hle, w, hw, hwt⟩)
        · exact ⟨le_refl _, v, by simp, h⟩
        · refine ⟨by omega, w, ?_, hwt⟩
          have : j - i = (j - (i + 1)) + 1 := by omega
          rw [this, List.getElem?_cons_succ]
          exact hw
      · rintro ⟨hle, w, hw, hwt⟩
        by_cases hji : j = i
        · exact Or.inl hji
        · right
          refine ⟨by omega, w, ?_, hwt⟩
          have : j - i = (j - (i + 1)) + 1 := by omega
          rw [this, List.getElem?_cons_succ] at hw
          exact hw
    · simp only [incLoop, h, if_false, ih]
      constructor
      · rintro ⟨hle, w, hw, hwt⟩
        refine ⟨by omega, w, ?_, hwt⟩
        have : j - i = (j - (i + 1)) + 1 := by omega
        rw [this, List.getElem?_cons_succ]
        exact hw
      · rintro ⟨hle, w, hw, hwt⟩
        by_cases hji : j = i
        · subst hji
          simp at hw
          subst hw
          exact absurd hwt h
        · refine ⟨by omega, w, ?_, hwt⟩
          have : j - i = (j - (i + 1)) + 1 := by omega
          rw [this, List.getElem?_cons_succ] at hw
          exact hw

theorem incLoop_snd_nodup (Hex : common.Address → String) (t : String) (i : Nat)
    (vs : List GuardianProver) :
    (incLoop Hex t i vs).2.Nodup := by
  induction vs generalizing i with
  | nil => simp [incLoop]
  | cons v vs ih =>
    by_cases h : Hex v.Address = t
    · simp only [incLoop, h, if_true, List.nodup_cons]
      refine ⟨?_, ih (i + 1)⟩
      intro hmem
      have := (incLoop_snd_mem Hex t (i + 1) i vs).1 hmem
      omega
    · simp only [incLoop, h, if_false]
      exact ih (i + 1)

theorem incLoop_no_match (Hex : common.Address → String) (t : String) (i : Nat)
    (vs : List GuardianProver) (h : ∀ v ∈ vs, Hex v.Address ≠ t) :
    incLoop Hex t i vs = (vs, []) := by
  induction vs generalizing i with
  | nil => rfl
  | cons v vs ih =>
    have hv : Hex v.Address ≠ t := h v (List.mem_cons_self _ _)
    have := ih (i + 1) (fun w hw => h w (List.mem_cons_of_mem _ hw))
    simp [incLoop, hv, this]

theorem incLoop_unique (Hex : common.Address → String) (g : GuardianProver)
    (i k : Nat) (vs : List GuardianProver)
    (huniq : (vs.map (fun v => Hex v.Address)).Nodup)
    (hk : vs[k]? = some g) :
    (incLoop Hex (Hex g.Address) i vs).2 = [i + k] := by
  induction vs generalizing i k with
  | nil => simp at hk
  | cons v vs ih =>
    simp only [List.map_cons, List.nodup_cons] at huniq
    cases k with
    | zero =>
      simp at hk
      subst hk
      have hrest : ∀ w ∈ vs, Hex w.Address ≠ Hex v.Address := by
        intro w hw heq
        exact huniq.1 (List.mem_map.2 ⟨w, hw, heq⟩)
      simp [incLoop, incLoop_no_match Hex _ (i + 1) vs hrest]
    | succ k =>
      rw [List.getElem?_cons_succ] at hk
      have hne : Hex v.Address ≠ Hex g.Address := by
        intro heq
        apply huniq.1
        exact List.mem_map.2 ⟨g, List.getElem?_mem hk, heq.symm⟩
      have := ih (i + 1) k huniq.2 hk
      simp only [incLoop, hne, if_false, this]
      congr 1
      omega

theorem incLoop_getElem? (Hex : common.Address → String) (t : String) (i j : Nat)
    (vs : List GuardianProver) (v : GuardianProver) (hv : vs[j]? = some v) :
    (incLoop Hex t i vs).1[j]? =
      some (if Hex v.Address = t then
              GuardianProver.mk v.Address v.ID (v.HealthCheckCounter + 1)
            else v) := by
  rw [incLoop_fst, List.getElem?_map, hv]
  rfl

/-- In every run, at most one record is handed to `Save`, and it is the one
built from a recovered guardian prover and a bound request. -/
theorem saves_PostHealthCheck {Body Err Store : Type}
    (E : Collaborators Body Err Store) (srv : Server Store) (c : Body) :
    saves (PostHealthCheck E srv c).calls = [] ∨
      ∃ g req, saves (PostHealthCheck E srv c).calls = [saveOpts E.Hex g req] := by
  cases hb : E.Bind c with
  | error err =>
    left
    rw [PostHealthCheck_bind_error E srv c err hb]
    rfl
  | ok req =>
    cases hr : E.SignatureToGuardianProver (msg E) req.HeartBeatSignature
        srv.guardianProvers with
    | error err =>
      left
      rw [PostHealthCheck_recover_error E srv c req err hb hr]
      rfl
    | ok g =>
      right
      refine ⟨g, req, ?_⟩
      rcases hs : E.Save srv.healthCheckRepo (saveOpts E.Hex g req) with ⟨repo, _ | err⟩
      · rw [PostHealthCheck_success E srv c req g repo hb hr hs]
        simp [saves, saves_append, saves_map_Inc]
      · rw [PostHealthCheck_save_error E srv c req g repo err hb hr hs]
        rfl

/-- In every run, every digest handed to `SignatureToGuardianProver` is the
package variable `msg`. -/
theorem digests_PostHealthCheck {Body Err Store : Type}
    (E : Collaborators Body Err Store) (srv : Server Store) (c : Body) :
    ∀ m ∈ digests (PostHealthCheck E srv c).calls, m = msg E := by
  cases hb : E.Bind c with
  | error err =>
    rw [PostHealthCheck_bind_error E srv c err hb]
    simp [digests]
  | ok req =>
    cases hr : E.SignatureToGuardianProver (msg E) req.HeartBeatSignature
        srv.guardianProvers with
    | error err =>
      rw [PostHealthCheck_recover_error E srv c req err hb hr]
      simp [digests]
    | ok g =>
      rcases hs : E.Save srv.healthCheckRepo (saveOpts E.Hex g req) with ⟨repo, _ | err⟩
      · rw [PostHealthCheck_success E srv c req g repo hb hr hs]
        simp [digests, digests_append, digests_map_Inc]
      · rw [PostHealthCheck_save_error E srv c req g repo err hb hr hs]
        simp [digests]

/-! ## The claims -/

/-- C1: when the body binds, `SignatureToGuardianProver` returns a guardian
prover `g` and `Save` reports no error, the response is 200 with a null body,
and `Save` is called exactly once, with the record whose ID is `g.ID` as a
uint64, whose liveness flag is true, whose expected and recovered address are
both `g.Address.Hex()` and whose signed response is the request's
`heartBeatSignature`.  In every run, every record handed to the store has equal
expected and recovered address. -/
theorem PostHealthCheck_success_response_and_record {Body Err Store : Type}
    (E : Collaborators Body Err Store) (srv : Server Store) (c : Body)
    (req : healthCheckReq) (g : GuardianProver) (repo : Store)
    (hb : E.Bind c = .ok req)
    (hr : E.SignatureToGuardianProver (msg E) req.HeartBeatSignature
            srv.guardianProvers = .ok g)
    (hs : E.Save srv.healthCheckRepo (saveOpts E.Hex g req) = (repo, none)) :
    (PostHealthCheck E srv c).status = 200 ∧
    (PostHealthCheck E srv c).body = none ∧
    saves (PostHealthCheck E srv c).calls =
      [SaveHealthCheckOpts.mk (Uint64 g.ID) true (E.Hex g.Address) (E.Hex g.Address)
        req.HeartBeatSignature] ∧
    (PostHealthCheck E srv c).srv.healthCheckRepo = repo ∧
    (∀ (srv2 : Server Store) (c2 : Body) (o : SaveHealthCheckOpts),
      o ∈ saves (PostHealthCheck E srv2 c2).calls →
        o.ExpectedAddress = o.RecoveredAddress) := by
  refine ⟨?_, ?_, ?_, ?_, ?_⟩
  · rw [PostHealthCheck_success E srv c req g repo hb hr hs]
    rfl
  · rw [PostHealthCheck_success E srv c req g repo hb hr hs]
  · rw [PostHealthCheck_success E srv c req g repo hb hr hs]
    simp [saves, saves_append, saves_map_Inc, saveOpts]
  · rw [PostHealthCheck_success E srv c req g repo hb hr hs]
  · intro srv2 c2 o ho
    rcases saves_PostHealthCheck E srv2 c2 with h | ⟨g2, req2, h⟩
    · rw [h] at ho
      simp at ho
    · rw [h] at ho
      simp at ho
      subst ho
      rfl

/-- C2: on the full-success path, when the `Address.Hex()` values of the known
guardian provers are pairwise distinct and the recovered guardian prover `g` is
the entry at index `i` of the set, `Inc()` is called on that entry and on no
other, once, and the entry's counter after the call is its counter before
plus 1. -/
theorem PostHealthCheck_success_counter {Body Err Store : Type}
    (E : Collaborators Body Err Store) (srv : Server Store) (c : Body)
    (req : healthCheckReq) (g : GuardianProver) (repo : Store) (i : Nat)
    (hb : E.Bind c = .ok req)
    (hr : E.SignatureToGuardianProver (msg E) req.HeartBeatSignature
            srv.guardianProvers = .ok g)
    (hs : E.Save srv.healthCheckRepo (saveOpts E.Hex g req) = (repo, none))
    (huniq : (srv.guardianProvers.map (fun v => E.Hex v.Address)).Nodup)
    (hi : srv.guardianProvers[i]? = some g) :
    incs (PostHealthCheck E srv c).calls = [i] ∧
    (PostHealthCheck E srv c).srv.guardianProvers[i]? =
      some (GuardianProver.mk g.Address g.ID (g.HealthCheckCounter + 1)) ∧
    (counters (PostHealthCheck E srv c).srv.guardianProvers)[i]? =
      some (g.HealthCheckCounter + 1) := by
  rw [PostHealthCheck_success E srv c req g repo hb hr hs]
  have hget := incLoop_getElem? E.Hex (E.Hex g.Address) 0 i srv.guardianProvers g hi
  simp only [if_true] at hget
  refine ⟨?_, hget, ?_⟩
  · simp [incs, incs_append, incs_map_Inc,
      incLoop_unique E.Hex g 0 i srv.guardianProvers huniq hi]
  · simp only [counters, List.getElem?_map, hget]
    rfl

/-- C3: when the body binds and `SignatureToGuardianProver` returns an error,
the response is 400 with that error as its body, `Save` is not called, `Inc()`
is not called, and the server state (the known guardian provers with their
counters, and the store) is unchanged. -/
theorem PostHealthCheck_recovery_rejected {Body Err Store : Type}
    (E : Collaborators Body Err Store) (srv : Server Store) (c : Body)
    (req : healthCheckReq) (err : Err)
    (hb : E.Bind c = .ok req)
    (hr : E.SignatureToGuardianProver (msg E) req.HeartBeatSignature
            srv.guardianProvers = .error err) :
    (PostHealthCheck E srv c).status = 400 ∧
    (PostHealthCheck E srv c).body = some err ∧
    saves (PostHealthCheck E srv c).calls = [] ∧
    incs (PostHealthCheck E srv c).calls = [] ∧
    (PostHealthCheck E srv c).srv = srv ∧
    counters (PostHealthCheck E srv c).srv.guardianProvers =
      counters srv.guardianProvers := by
  rw [PostHealthCheck_recover_error E srv c req err hb hr]
  exact ⟨rfl, rfl, rfl, rfl, rfl, rfl⟩

/-- C4: when the body fails to bind, the response is 400 with the bind error as
its body, and the only calls made are the bind and the response:
`SignatureToGuardianProver` is not called, `Save` is not called, `Inc()` is not
called, and the server state is unchanged. -/
theorem PostHealthCheck_bind_rejected {Body Err Store : Type}
    (E : Collaborators Body Err Store) (srv : Server Store) (c : Body) (err : Err)
    (hb : E.Bind c = .error err) :
    (PostHealthCheck E srv c).status = 400 ∧
    (PostHealthCheck E srv c).body = some err ∧
    (PostHealthCheck E srv c).calls = [.Bind c, .JSON 400 (some err)] ∧
    digests (PostHealthCheck E srv c).calls = [] ∧
    saves (PostHealthCheck E srv c).calls = [] ∧
    incs (PostHealthCheck E srv c).calls = [] ∧
    (PostHealthCheck E srv c).srv = srv ∧
    counters (PostHealthCheck E srv c).srv.guardianProvers =
      counters srv.guardianProvers := by
  rw [PostHealthCheck_bind_error E srv c err hb]
  exact ⟨rfl, rfl, rfl, rfl, rfl, rfl, rfl, rfl⟩

/-- C5: when the body binds, a guardian prover is recovered and `Save` returns
an error, the response is 400 with the store's error as its body, `Inc()` is
not called, and the known guardian provers, counters included, are as they
were before the call. -/
theorem PostHealthCheck_save_rejected {Body Err Store : Type}
    (E : Collaborators Body Err Store) (srv : Server Store) (c : Body)
    (req : healthCheckReq) (g : GuardianProver) (repo : Store) (err : Err)
    (hb : E.Bind c = .ok req)
    (hr : E.SignatureToGuardianProver (msg E) req.HeartBeatSignature
            srv.guardianProvers = .ok g)
    (hs : E.Save srv.healthCheckRepo (saveOpts E.Hex g req) = (repo, some err)) :
    (PostHealthCheck E srv c).status = 400 ∧
    (PostHealthCheck E srv c).body = some err ∧
    incs (PostHealthCheck E srv c).calls = [] ∧
    (PostHealthCheck E srv c).srv.guardianProvers = srv.guardianProvers ∧
    counters (PostHealthCheck E srv c).srv.guardianProvers =
      counters srv.guardianProvers := by
  rw [PostHealthCheck_save_error E srv c req g repo err hb hr hs]
  exact ⟨rfl, rfl, rfl, rfl, rfl⟩

/-- C6: the same request handled twice in sequence, the second run on the state
the first one left, with recovery returning the same guardian prover (the entry
at index `i`, addresses pairwise distinct) and `Save` succeeding both times:
both responses are 200, `Save` is called once in each run with the same record,
`Inc()` is called on entry `i` once in each run, and the counter of that entry
ends at its initial value plus 2; the second run changes the state again, so
the handler is not idempotent. -/
theorem PostHealthCheck_twice_not_idempotent {Body Err Store : Type}
    (E : Collaborators Body Err Store) (srv : Server Store) (c : Body)
    (req : healthCheckReq) (g g2 : GuardianProver) (repo1 repo2 : Store) (i : Nat)
    (hb : E.Bind c = .ok req)
    (hr1 : E.SignatureToGuardianProver (msg E) req.HeartBeatSignature
            srv.guardianProvers = .ok g)
    (hs1 : E.Save srv.healthCheckRepo (saveOpts E.Hex g req) = (repo1, none))
    (hr2 : E.SignatureToGuardianProver (msg E) req.HeartBeatSignature
            (PostHealthCheck E srv c).srv.guardianProvers = .ok g2)
    (hsame : g2.Address = g.Address ∧ g2.ID = g.ID)
    (hs2 : E.Save repo1 (saveOpts E.Hex g2 req) = (repo2, none))
    (huniq : (srv.guardianProvers.map (fun v => E.Hex v.Address)).Nodup)
    (hi : srv.guardianProvers[i]? = some g) :
    (PostHealthCheck E srv c).status = 200 ∧
    (PostHealthCheck E (PostHealthCheck E srv c).srv c).status = 200 ∧
    saves (PostHealthCheck E srv c).calls = [saveOpts E.Hex g req] ∧
    saves (PostHealthCheck E (PostHealthCheck E srv c).srv c).calls =
      [saveOpts E.Hex g req] ∧
    incs (PostHealthCheck E srv c).calls = [i] ∧
    incs (PostHealthCheck E (PostHealthCheck E srv c).srv c).calls = [i] ∧
    (counters (PostHealthCheck E srv c).srv.guardianProvers)[i]? =
      some (g.HealthCheckCounter + 1) ∧
    (counters (PostHealthCheck E (PostHealthCheck E srv c).srv c).srv.guardianProvers)[i]? =
      some (g.HealthCheckCounter + 2) ∧
    (PostHealthCheck E (PostHealthCheck E srv c).srv c).srv.guardianProvers ≠
      (PostHealthCheck E srv c).srv.guardianProvers := by
  have h1 := PostHealthCheck_success E srv c req g repo1 hb hr1 hs1
  rw [h1] at hr2
  simp only at hr2
  have hopts : saveOpts E.Hex g2 req = saveOpts E.Hex g req := by
    simp [saveOpts, hsame.1, hsame.2]
  have hget1 := incLoop_getElem? E.Hex (E.Hex g.Address) 0 i srv.guardianProvers g hi
  simp only [if_true] at hget1
  have huniq1 : ((incLoop E.Hex (E.Hex g.Address) 0 srv.guardianProvers).1.map
      (fun v => E.Hex v.Address)).Nodup := by
    have : (incLoop E.Hex (E.Hex g.Address) 0 srv.guardianProvers).1.map
        (fun v => E.Hex v.Address) = srv.guardianProvers.map (fun v => E.Hex v.Address) := by
      rw [incLoop_fst, List.map_map]
      apply List.map_congr_left
      intro v _
      simp only [Function.comp]
      split <;> rfl
    rw [this]
    exact huniq
  have h2 := PostHealthCheck_success E
    (Server.mk (incLoop E.Hex (E.Hex g.Address) 0 srv.guardianProvers).1 repo1) c req g2
    repo2 hb hr2 hs2
  have htarget : E.Hex g2.Address =
      E.Hex (GuardianProver.mk g.Address g.ID (g.HealthCheckCounter + 1)).Address := by
    rw [hsame.1]
  have hloop2 := incLoop_unique E.Hex
    (GuardianProver.mk g.Address g.ID (g.HealthCheckCounter + 1)) 0 i _ huniq1 hget1
  have hget2 := incLoop_getElem? E.Hex
    (E.Hex (GuardianProver.mk g.Address g.ID (g.HealthCheckCounter + 1)).Address) 0 i _ _ hget1
  simp only [if_true] at hget2
  rw [h1]
  simp only
  rw [h2]
  simp only
  rw [htarget, hloop2, incLoop_unique E.Hex g 0 i srv.guardianProvers huniq hi, hopts]
  refine ⟨rfl, rfl, ?_, ?_, ?_, ?_, ?_, ?_, ?_⟩
  · simp [saves]
  · simp [saves]
  · simp [incs]
  · simp [incs]
  · simp only [counters, List.getElem?_map, hget1]
    rfl
  · simp only [counters, List.getElem?_map, hget2]
    rfl
  · intro heq
    have := congrArg (fun l => l[i]?) heq
    simp only [hget1, hget2] at this
    simp at this

/-- C7: two requests that bind to the same `heartBeatSignature`, whatever their
`prover` fields, run on the same server state with the same collaborators, give
the same status, the same body, the same server state after the call, and the
same calls after the bind (the same recovery, the same `Save` with the same
record or none, the same increments); and in every run the digest handed to
`SignatureToGuardianProver` is the Keccak-256 hash of the ten bytes of
`"HEART_BEAT"`. -/
theorem PostHealthCheck_prover_field_ignored {Body Err Store : Type}
    (E : Collaborators Body Err Store) (srv : Server Store) (c1 c2 : Body)
    (req1 req2 : healthCheckReq)
    (hb1 : E.Bind c1 = .ok req1) (hb2 : E.Bind c2 = .ok req2)
    (hsig : req1.HeartBeatSignature = req2.HeartBeatSignature) :
    (PostHealthCheck E srv c1).status = (PostHealthCheck E srv c2).status ∧
    (PostHealthCheck E srv c1).body = (PostHealthCheck E srv c2).body ∧
    (PostHealthCheck E srv c1).srv = (PostHealthCheck E srv c2).srv ∧
    (PostHealthCheck E srv c1).calls.tail = (PostHealthCheck E srv c2).calls.tail ∧
    saves (PostHealthCheck E srv c1).calls = saves (PostHealthCheck E srv c2).calls ∧
    incs (PostHealthCheck E srv c1).calls = incs (PostHealthCheck E srv c2).calls ∧
    (∀ (srv0 : Server Store) (c0 : Body),
      ∀ m ∈ digests (PostHealthCheck E srv0 c0).calls,
        m = E.Keccak256Hash [72, 69, 65, 82, 84, 95, 66, 69, 65, 84]) := by
  have hmsg : msg E = E.Keccak256Hash [72, 69, 65, 82, 84, 95, 66, 69, 65, 84] := by
    have : goBytes "HEART_BEAT" = [72, 69, 65, 82, 84, 95, 66, 69, 65, 84] := by decide
    rw [msg, this]
  have hdig : ∀ (srv0 : Server Store) (c0 : Body),
      ∀ m ∈ digests (PostHealthCheck E srv0 c0).calls,
        m = E.Keccak256Hash [72, 69, 65, 82, 84, 95, 66, 69, 65, 84] := by
    intro srv0 c0 m hm
    rw [← hmsg]
    exact digests_PostHealthCheck E srv0 c0 m hm
  cases hr : E.SignatureToGuardianProver (msg E) req1.HeartBeatSignature
      srv.guardianProvers with
  | error err =>
    have hr2 := hr
    rw [hsig] at hr2
    rw [PostHealthCheck_recover_error E srv c1 req1 err hb1 hr,
      PostHealthCheck_recover_error E srv c2 req2 err hb2 hr2]
    refine ⟨rfl, rfl, rfl, ?_, rfl, rfl, hdig⟩
    simp only [List.tail_cons, hsig]
  | ok g =>
    have hr2 := hr
    rw [hsig] at hr2
    have hopts : saveOpts E.Hex g req1 = saveOpts E.Hex g req2 := by
      simp [saveOpts, hsig]
    rcases hs : E.Save srv.healthCheckRepo (saveOpts E.Hex g req1) with ⟨repo, _ | err⟩
    · have hs2 := hs
      rw [hopts] at hs2
      rw [PostHealthCheck_success E srv c1 req1 g repo hb1 hr hs,
        PostHealthCheck_success E srv c2 req2 g repo hb2 hr2 hs2]
      refine ⟨rfl, rfl, rfl, ?_, ?_, ?_, hdig⟩
      · simp only [List.cons_append, List.tail_cons, hsig, hopts]
      · simp only [List.cons_append, saves, hopts]
      · simp only [List.cons_append, incs]
    · have hs2 := hs
      rw [hopts] at hs2
      rw [PostHealthCheck_save_error E srv c1 req1 g repo err hb1 hr hs,
        PostHealthCheck_save_error E srv c2 req2 g repo err hb2 hr2 hs2]
      refine ⟨rfl, rfl, rfl, ?_, ?_, rfl, hdig⟩
      · simp only [List.tail_cons, hsig, hopts]
      · simp only [saves, hopts]

/-- C8: in every run, whatever the request and the outcome, the known guardian
provers keep their number, their order, their IDs and their addresses; when a
guardian prover `g` is recovered, every entry whose `Address.Hex()` differs from
that of `g` is unchanged, counter included; and when none is recovered
(the bind or the recovery fails) the whole set is unchanged. -/
theorem PostHealthCheck_frame {Body Err Store : Type}
    (E : Collaborators Body Err Store) (srv : Server Store) (c : Body) :
    (PostHealthCheck E srv c).srv.guardianProvers.length = srv.guardianProvers.length ∧
    (PostHealthCheck E srv c).srv.guardianProvers.map (fun v => v.ID) =
      srv.guardianProvers.map (fun v => v.ID) ∧
    (PostHealthCheck E srv c).srv.guardianProvers.map (fun v => v.Address) =
      srv.guardianProvers.map (fun v => v.Address) ∧
    (∀ (req : healthCheckReq) (g : GuardianProver),
      E.Bind c = .ok req →
      E.SignatureToGuardianProver (msg E) req.HeartBeatSignature
        srv.guardianProvers = .ok g →
      ∀ (i : Nat) (v : GuardianProver), srv.guardianProvers[i]? = some v →
        E.Hex v.Address ≠ E.Hex g.Address →
        (PostHealthCheck E srv c).srv.guardianProvers[i]? = some v ∧
        (counters (PostHealthCheck E srv c).srv.guardianProvers)[i]? =
          some v.HealthCheckCounter) ∧
    ((∀ (req : healthCheckReq) (g : GuardianProver),
        E.Bind c = .ok req →
        E.SignatureToGuardianProver (msg E) req.HeartBeatSignature
          srv.guardianProvers ≠ .ok g) →
      (PostHealthCheck E srv c).srv.guardianProvers = srv.guardianProvers) := by
  have hID : ∀ (t : String) (vs : List GuardianProver),
      (incLoop E.Hex t 0 vs).1.map (fun v => v.ID) = vs.map (fun v => v.ID) := by
    intro t vs
    rw [incLoop_fst, List.map_map]
    apply List.map_congr_left
    intro v _
    simp only [Function.comp]
    split <;> rfl
  have hAddr : ∀ (t : String) (vs : List GuardianProver),
      (incLoop E.Hex t 0 vs).1.map (fun v => v.Address) = vs.map (fun v => v.Address) := by
    intro t vs
    rw [incLoop_fst, List.map_map]
    apply List.map_congr_left
    intro v _
    simp only [Function.comp]
    split <;> rfl
  cases hb : E.Bind c with
  | error err =>
    rw [PostHealthCheck_bind_error E srv c err hb]
    refine ⟨rfl, rfl, rfl, ?_, fun _ => rfl⟩
    intro req g hreq
    cases hreq
  | ok req =>
    cases hr : E.SignatureToGuardianProver (msg E) req.HeartBeatSignature
        srv.guardianProvers with
    | error err =>
      rw [PostHealthCheck_recover_error E srv c req err hb hr]
      refine ⟨rfl, rfl, rfl, ?_, fun _ => rfl⟩
      intro req2 g hreq hg
      cases hreq
      rw [hr] at hg
      cases hg
    | ok g =>
      rcases hs : E.Save srv.healthCheckRepo (saveOpts E.Hex g req) with ⟨repo, _ | err⟩
      · rw [PostHealthCheck_success E srv c req g repo hb hr hs]
        refine ⟨?_, hID _ _, hAddr _ _, ?_, ?_⟩
        · simp [incLoop_fst]
        · intro req2 g2 hreq hg i v hv hne
          cases hreq
          rw [hr] at hg
          cases hg
          have hget := incLoop_getElem? E.Hex (E.Hex g.Address) 0 i srv.guardianProvers v hv
          simp only [hne, if_false] at hget
          refine ⟨hget, ?_⟩
          simp only [counters, List.getElem?_map, hget]
          rfl
        · intro hnone
          exact absurd hr (hnone req g rfl)
      · rw [PostHealthCheck_save_error E srv c req g repo err hb hr hs]
        refine ⟨rfl, rfl, rfl, ?_, fun _ => rfl⟩
        intro req2 g2 hreq hg i v hv _
        refine ⟨hv, ?_⟩
        simp only [counters, List.getElem?_map, hv]
        rfl

/-- C10: on the full-success path, with no uniqueness assumed, the counter loop
runs over the whole set: the number of `Inc()` calls is the number of entries
whose `Address.Hex()` equals that of the recovered guardian prover `g`, no entry
is incremented twice, the entries incremented are exactly those with that
`Address.Hex()`, each of them ends with its counter plus 1 and every other
entry is unchanged; and when no entry has that `Address.Hex()`, the record is
still saved, the response is still 200, and no counter is incremented. -/
theorem PostHealthCheck_counter_loop_all_matches {Body Err Store : Type}
    (E : Collaborators Body Err Store) (srv : Server Store) (c : Body)
    (req : healthCheckReq) (g : GuardianProver) (repo : Store)
    (hb : E.Bind c = .ok req)
    (hr : E.SignatureToGuardianProver (msg E) req.HeartBeatSignature
            srv.guardianProvers = .ok g)
    (hs : E.Save srv.healthCheckRepo (saveOpts E.Hex g req) = (repo, none)) :
    (PostHealthCheck E srv c).status = 200 ∧
    (PostHealthCheck E srv c).body = none ∧
    saves (PostHealthCheck E srv c).calls = [saveOpts E.Hex g req] ∧
    (incs (PostHealthCheck E srv c).calls).length =
      srv.guardianProvers.countP (fun v => decide (E.Hex v.Address = E.Hex g.Address)) ∧
    (incs (PostHealthCheck E srv c).calls).Nodup ∧
    (∀ j : Nat, j ∈ incs (PostHealthCheck E srv c).calls ↔
      ∃ v, srv.guardianProvers[j]? = some v ∧ E.Hex v.Address = E.Hex g.Address) ∧
    (∀ (j : Nat) (v : GuardianProver), srv.guardianProvers[j]? = some v →
      (PostHealthCheck E srv c).srv.guardianProvers[j]? =
        some (if E.Hex v.Address = E.Hex g.Address then
                GuardianProver.mk v.Address v.ID (v.HealthCheckCounter + 1)
              else v)) ∧
    ((∀ v ∈ srv.guardianProvers, E.Hex v.Address ≠ E.Hex g.Address) →
      incs (PostHealthCheck E srv c).calls = [] ∧
      (PostHealthCheck E srv c).srv.guardianProvers = srv.guardianProvers) := by
  rw [PostHealthCheck_success E srv c req g repo hb hr hs]
  have hincs : incs
      (([.Bind c,
          .SignatureToGuardianProver (msg E) req.HeartBeatSignature srv.guardianProvers,
          .Save (saveOpts E.Hex g req)] : List (Call Body Err))
        ++ (incLoop E.Hex (E.Hex g.Address) 0 srv.guardianProvers).2.map Call.Inc
        ++ [.Info "successful health check" "guardianProver" (E.Hex g.Address),
            .JSON StatusOK none])
      = (incLoop E.Hex (E.Hex g.Address) 0 srv.guardianProvers).2 := by
    simp [incs, incs_append, incs_map_Inc]
  refine ⟨rfl, rfl, ?_, ?_, ?_, ?_, ?_, ?_⟩
  · simp [saves, saves_append, saves_map_Inc]
  · simp only [hincs]
    exact incLoop_snd_length _ _ _ _
  · simp only [hincs]
    exact incLoop_snd_nodup _ _ _ _
  · intro j
    simp only [hincs]
    rw [incLoop_snd_mem]
    simp
  · intro j v hv
    exact incLoop_getElem? E.Hex (E.Hex g.Address) 0 j srv.guardianProvers v hv
  · intro hnone
    simp only [hincs]
    rw [incLoop_no_match E.Hex (E.Hex g.Address) 0 srv.guardianProvers hnone]
    exact ⟨rfl, rfl⟩

/-! ## The claims at concrete requests -/

theorem PostHealthCheck_success_response_and_record_witness :
    Fixture.deps.Bind (some Fixture.reqA) = .ok Fixture.reqA ∧
    Fixture.deps.SignatureToGuardianProver (msg Fixture.deps)
      Fixture.reqA.HeartBeatSignature Fixture.server.guardianProvers
        = .ok Fixture.guardianA ∧
    Fixture.deps.Save Fixture.server.healthCheckRepo
      (saveOpts Fixture.deps.Hex Fixture.guardianA Fixture.reqA)
        = ([Fixture.recordA], none) ∧
    (PostHealthCheck Fixture.deps Fixture.server (some Fixture.reqA)).status = 200 ∧
    (PostHealthCheck Fixture.deps Fixture.server (some Fixture.reqA)).body = none ∧
    saves (PostHealthCheck Fixture.deps Fixture.server (some Fixture.reqA)).calls
      = [Fixture.recordA] :=
  have h := PostHealthCheck_success_response_and_record Fixture.deps Fixture.server
    (some Fixture.reqA) Fixture.reqA Fixture.guardianA [Fixture.recordA] rfl rfl rfl
  ⟨rfl, rfl, rfl, h.1, h.2.1, h.2.2.1⟩

theorem PostHealthCheck_success_counter_witness :
    (Fixture.server.guardianProvers.map (fun v => Fixture.deps.Hex v.Address)).Nodup ∧
    Fixture.server.guardianProvers[0]? = some Fixture.guardianA ∧
    incs (PostHealthCheck Fixture.deps Fixture.server (some Fixture.reqA)).calls = [0] ∧
    (counters (PostHealthCheck Fixture.deps Fixture.server
      (some Fixture.reqA)).srv.guardianProvers)[0]? = some 4 :=
  have h := PostHealthCheck_success_counter Fixture.deps Fixture.server
    (some Fixture.reqA) Fixture.reqA Fixture.guardianA [Fixture.recordA] 0 rfl rfl rfl
    (by decide) rfl
  ⟨by decide, rfl, h.1, h.2.2⟩

theorem PostHealthCheck_recovery_rejected_witness :
    Fixture.deps.Bind (some Fixture.reqZ) = .ok Fixture.reqZ ∧
    Fixture.deps.SignatureToGuardianProver (msg Fixture.deps)
      Fixture.reqZ.HeartBeatSignature Fixture.server.guardianProvers
        = .error "signature does not recover to known guardian prover" ∧
    (PostHealthCheck Fixture.deps Fixture.server (some Fixture.reqZ)).status = 400 ∧
    (PostHealthCheck Fixture.deps Fixture.server (some Fixture.reqZ)).body
      = some "signature does not recover to known guardian prover" ∧
    saves (PostHealthCheck Fixture.deps Fixture.server (some Fixture.reqZ)).calls = [] ∧
    counters (PostHealthCheck Fixture.deps Fixture.server
      (some Fixture.reqZ)).srv.guardianProvers = [3, 0] :=
  have h := PostHealthCheck_recovery_rejected Fixture.deps Fixture.server
    (some Fixture.reqZ) Fixture.reqZ
    "signature does not recover to known guardian prover" rfl rfl
  ⟨rfl, rfl, h.1, h.2.1, h.2.2.1, h.2.2.2.2.2⟩

theorem PostHealthCheck_bind_rejected_witness :
    Fixture.deps.Bind none = .error "bad request" ∧
    (PostHealthCheck Fixture.deps Fixture.server none).status = 400 ∧
    (PostHealthCheck Fixture.deps Fixture.server none).body = some "bad request" ∧
    (PostHealthCheck Fixture.deps Fixture.server none).calls
      = [.Bind none, .JSON 400 (some "bad request")] ∧
    counters (PostHealthCheck Fixture.deps Fixture.server none).srv.guardianProvers
      = [3, 0] :=
  have h := PostHealthCheck_bind_rejected Fixture.deps Fixture.server none
    "bad request" rfl
  ⟨rfl, h.1, h.2.1, h.2.2.1, h.2.2.2.2.2.2.2⟩

theorem PostHealthCheck_save_rejected_witness :
    Fixture.depsDown.Bind (some Fixture.reqA) = .ok Fixture.reqA ∧
    Fixture.depsDown.SignatureToGuardianProver (msg Fixture.depsDown)
      Fixture.reqA.HeartBeatSignature Fixture.server.guardianProvers
        = .ok Fixture.guardianA ∧
    Fixture.depsDown.Save Fixture.server.healthCheckRepo
      (saveOpts Fixture.depsDown.Hex Fixture.guardianA Fixture.reqA)
        = ([], some "store unavailable") ∧
    (PostHealthCheck Fixture.depsDown Fixture.server (some Fixture.reqA)).status = 400 ∧
    (PostHealthCheck Fixture.depsDown Fixture.server (some Fixture.reqA)).body
      = some "store unavailable" ∧
    counters (PostHealthCheck Fixture.depsDown Fixture.server
      (some Fixture.reqA)).srv.guardianProvers = [3, 0] :=
  have h := PostHealthCheck_save_rejected Fixture.depsDown Fixture.server
    (some Fixture.reqA) Fixture.reqA Fixture.guardianA [] "store unavailable" rfl rfl rfl
  ⟨rfl, rfl, rfl, h.1, h.2.1, h.2.2.2.2⟩

theorem PostHealthCheck_twice_not_idempotent_witness :
    Fixture.deps.SignatureToGuardianProver (msg Fixture.deps)
      Fixture.reqA.HeartBeatSignature
      (PostHealthCheck Fixture.deps Fixture.server (some Fixture.reqA)).srv.guardianProvers
        = .ok (GuardianProver.mk (common.Address.mk [1]) 7 4) ∧
    Fixture.deps.Save [Fixture.recordA]
      (saveOpts Fixture.deps.Hex (GuardianProver.mk (common.Address.mk [1]) 7 4)
        Fixture.reqA) = ([Fixture.recordA, Fixture.recordA], none) ∧
    saves (PostHealthCheck Fixture.deps Fixture.server (some Fixture.reqA)).calls
      = [Fixture.recordA] ∧
    saves (PostHealthCheck Fixture.deps
      (PostHealthCheck Fixture.deps Fixture.server (some Fixture.reqA)).srv
      (some Fixture.reqA)).calls = [Fixture.recordA] ∧
    (counters (PostHealthCheck Fixture.deps
      (PostHealthCheck Fixture.deps Fixture.server (some Fixture.reqA)).srv
      (some Fixture.reqA)).srv.guardianProvers)[0]? = some 5 :=
  have h := PostHealthCheck_twice_not_idempotent Fixture.deps Fixture.server
    (some Fixture.reqA) Fixture.reqA Fixture.guardianA
    (GuardianProver.mk (common.Address.mk [1]) 7 4)
    [Fixture.recordA] [Fixture.recordA, Fixture.recordA] 0
    rfl rfl rfl rfl ⟨rfl, rfl⟩ rfl (by decide) rfl
  ⟨rfl, rfl, h.2.2.1, h.2.2.2.1, h.2.2.2.2.2.2.2.1⟩

theorem PostHealthCheck_prover_field_ignored_witness :
    Fixture.deps.Bind (some Fixture.reqA) = .ok Fixture.reqA ∧
    Fixture.deps.Bind (some Fixture.reqA2) = .ok Fixture.reqA2 ∧
    Fixture.reqA.ProverAddress ≠ Fixture.reqA2.ProverAddress ∧
    Fixture.reqA.HeartBeatSignature = Fixture.reqA2.HeartBeatSignature ∧
    (PostHealthCheck Fixture.deps Fixture.server (some Fixture.reqA)).srv =
      (PostHealthCheck Fixture.deps Fixture.server (some Fixture.reqA2)).srv ∧
    saves (PostHealthCheck Fixture.deps Fixture.server (some Fixture.reqA)).calls =
      saves (PostHealthCheck Fixture.deps Fixture.server (some Fixture.reqA2)).calls :=
  have h := PostHealthCheck_prover_field_ignored Fixture.deps Fixture.server
    (some Fixture.reqA) (some Fixture.reqA2) Fixture.reqA Fixture.reqA2 rfl rfl rfl
  ⟨rfl, rfl, by decide, rfl, h.2.2.1, h.2.2.2.2.1⟩

theorem PostHealthCheck_frame_witness :
    Fixture.deps.Hex (common.Address.mk [2]) ≠ Fixture.deps.Hex Fixture.guardianA.Address ∧
    (PostHealthCheck Fixture.deps Fixture.server
      (some Fixture.reqA)).srv.guardianProvers.map (fun v => v.ID) = [7, 8] ∧
    (PostHealthCheck Fixture.deps Fixture.server
      (some Fixture.reqA)).srv.guardianProvers[1]?
        = some (GuardianProver.mk (common.Address.mk [2]) 8 0) :=
  have h := PostHealthCheck_frame Fixture.deps Fixture.server (some Fixture.reqA)
  ⟨by decide, h.2.1,
    (h.2.2.2.1 Fixture.reqA Fixture.guardianA rfl rfl 1
      (GuardianProver.mk (common.Address.mk [2]) 8 0) rfl (by decide)).1⟩

theorem PostHealthCheck_counter_loop_all_matches_witness :
    (Fixture.deps.SignatureToGuardianProver (msg Fixture.deps)
      Fixture.reqA.HeartBeatSignature Fixture.serverDup.guardianProvers
        = .ok Fixture.guardianA ∧
     (incs (PostHealthCheck Fixture.deps Fixture.serverDup
        (some Fixture.reqA)).calls).length = 2) ∧
    (Fixture.depsStranger.SignatureToGuardianProver (msg Fixture.depsStranger)
      Fixture.reqZ.HeartBeatSignature Fixture.server.guardianProvers
        = .ok Fixture.stranger ∧
     (PostHealthCheck Fixture.depsStranger Fixture.server (some Fixture.reqZ)).status = 200 ∧
     saves (PostHealthCheck Fixture.depsStranger Fixture.server (some Fixture.reqZ)).calls
        = [SaveHealthCheckOpts.mk 99 true "0x09" "0x09" "sigZ"] ∧
     incs (PostHealthCheck Fixture.depsStranger Fixture.server (some Fixture.reqZ)).calls
        = []) :=
  have h := PostHealthCheck_counter_loop_all_matches Fixture.deps Fixture.serverDup
    (some Fixture.reqA) Fixture.reqA Fixture.guardianA [Fixture.recordA] rfl rfl rfl
  have k := PostHealthCheck_counter_loop_all_matches Fixture.depsStranger Fixture.server
    (some Fixture.reqZ) Fixture.reqZ Fixture.stranger
    [SaveHealthCheckOpts.mk 99 true "0x09" "0x09" "sigZ"] rfl rfl rfl
  ⟨⟨rfl, h.2.2.2.1⟩, ⟨rfl, k.1, k.2.2.1, (k.2.2.2.2.2.2.2 (by decide)).1⟩⟩

end http
